import Mathlib

/-!
# LatestNewsAgent — verification of the session state machine and news pipeline

A shallow embedding of the Python backend (`backend/models.py`,
`backend/services/news_service.py`, `backend/routes/chat.py`,
`backend/agent/runtime.py`, `backend/agent/tools.py`) together with
theorems settling the behavioural claims about it.

Modelling conventions:
* Python strings are Lean `String`; the Python string methods used by the
  code (`strip`, `lower`, `split`, `replace`, `startswith`, `in`, `join`)
  are modelled explicitly below over the character list.
* A Python `dict` of preferences is an association list
  `List (String × Option String)`; a value `none` is Python `None`.
* A Python function that can raise returns `Option`, with `none` for an
  uncaught exception.
* The external text-generation collaborator (`call_ollama`) is a function
  parameter `String → String → Option String`; `none` models the
  unavailable/failed collaborator.
* `random.shuffle` is a function parameter on lists; theorems that need it
  assume only that it preserves length.
-/

namespace LatestNewsAgent

/-! ## Python string primitives -/

/-- Model of Python whitespace for `str.strip()` (ASCII fragment). -/
def pyIsSpace (c : Char) : Bool :=
  c == ' ' || c == '\t' || c == '\n' || c == '\r'

/-- Strip whitespace from both ends of a character list. -/
def stripChars (l : List Char) : List Char :=
  ((l.dropWhile pyIsSpace).reverse.dropWhile pyIsSpace).reverse

/-- Model of Python `str.strip()`. -/
def pyStrip (s : String) : String :=
  String.mk (stripChars s.toList)

/-- Model of Python `str.lower()` (ASCII case folding). -/
def pyLower (s : String) : String :=
  String.mk (s.toList.map Char.toLower)

/-- `listStartsWith hay pre` is true when `pre` is an initial segment of `hay`. -/
def listStartsWith : List Char → List Char → Bool
  | _, [] => true
  | [], _ :: _ => false
  | a :: as, b :: bs => a == b && listStartsWith as bs

/-- Model of Python `str.startswith(pre)`. -/
def pyStartsWith (s pre : String) : Bool :=
  listStartsWith s.toList pre.toList

/-- `listContainsSub hay needle` is true when `needle` occurs contiguously in `hay`. -/
def listContainsSub : List Char → List Char → Bool
  | [], needle => needle.isEmpty
  | c :: rest, needle => listStartsWith (c :: rest) needle || listContainsSub rest needle

/-- Model of Python `needle in haystack` for strings. -/
def pyContains (haystack needle : String) : Bool :=
  listContainsSub haystack.toList needle.toList

/-- Split a character list on a separator character, keeping empty fragments
(Python `str.split(sep)` semantics). -/
def splitOnCharAux (sep : Char) : List Char → List Char → List String
  | [], acc => [String.mk acc.reverse]
  | c :: rest, acc =>
    if c == sep then String.mk acc.reverse :: splitOnCharAux sep rest []
    else splitOnCharAux sep rest (c :: acc)

/-- Model of Python `s.split(sep)` for a one-character separator. -/
def pySplitChar (sep : Char) (s : String) : List String :=
  splitOnCharAux sep s.toList []

/-- Model of Python `s.replace(a, b)` for one-character patterns. -/
def pyReplaceChar (a b : Char) (s : String) : String :=
  String.mk (s.toList.map (fun c => if c == a then b else c))

/-- Model of Python `sep.join(parts)`. -/
def pyJoin (sep : String) : List String → String
  | [] => ""
  | [x] => x
  | x :: y :: rest => x ++ sep ++ pyJoin sep (y :: rest)

/-- Rendering of a Python `Optional[str]` inside an f-string (`None` prints as
`"None"`). -/
def optStr : Option String → String
  | none => "None"
  | some s => s

/-! ## Data model (`backend/models.py`) -/

/-- One chat message: `role` is `"user"` or `"assistant"`. -/
structure Message where
  role : String
  content : String
deriving Repr, DecidableEq

/-- The five preference slots of `Session.preferences`, in the fixed key
order of the Python dict: `tone_of_voice`, `response_format`, `language`,
`interaction_style`, `news_topics`. `none` is Python `None`. -/
structure Preferences where
  tone_of_voice : Option String
  response_format : Option String
  language : Option String
  interaction_style : Option String
  news_topics : Option String
deriving Repr, DecidableEq

/-- The all-`None` preference dict used at session creation and by
`SessionStore.reset`. -/
def initialPreferences : Preferences :=
  ⟨none, none, none, none, none⟩

/-- Python truthiness of an `Optional[str]`: `None` and `""` are falsy. -/
def truthy : Option String → Bool
  | none => false
  | some s => s != ""

/-- Read the preference slot at position `i` in the fixed key order
(`list(self.preferences.keys())[i]`). -/
def getSlot (p : Preferences) : Nat → Option String
  | 0 => p.tone_of_voice
  | 1 => p.response_format
  | 2 => p.language
  | 3 => p.interaction_style
  | 4 => p.news_topics
  | _ => none

/-- Write the preference slot at position `i` in the fixed key order. -/
def setSlot (p : Preferences) (i : Nat) (v : String) : Preferences :=
  match i with
  | 0 => { p with tone_of_voice := some v }
  | 1 => { p with response_format := some v }
  | 2 => { p with language := some v }
  | 3 => { p with interaction_style := some v }
  | 4 => { p with news_topics := some v }
  | _ => p

/-- A chat session (`models.Session`). -/
structure Session where
  id : String
  preferences : Preferences
  conversation : List Message
  question_index : Nat
deriving Repr, DecidableEq

/-- `Session()` as built by `SessionStore.create` (fresh id, all-`None`
preferences, empty conversation, `question_index = 0`). -/
def Session.create (id : String) : Session :=
  ⟨id, initialPreferences, [], 0⟩

/-- `Session.is_complete`: `all(v for v in self.preferences.values())`. -/
def Session.is_complete (s : Session) : Bool :=
  truthy s.preferences.tone_of_voice &&
  truthy s.preferences.response_format &&
  truthy s.preferences.language &&
  truthy s.preferences.interaction_style &&
  truthy s.preferences.news_topics

/-- `Session.record_answer`: when `question_index < 5` (the number of keys),
store the stripped answer in the slot at position `question_index` and advance
the cursor; otherwise do nothing. -/
def Session.record_answer (s : Session) (answer : String) : Session :=
  if s.question_index < 5 then
    { s with preferences := setSlot s.preferences s.question_index (pyStrip answer),
             question_index := s.question_index + 1 }
  else s

/-- The in-place state change performed by `SessionStore.reset` on a stored
session: preferences back to all-`None`, cursor back to `0`, conversation kept. -/
def Session.resetState (s : Session) : Session :=
  { s with preferences := initialPreferences, question_index := 0 }

/-! ## Session store (`models.SessionStore`)

The Python store is a `Dict[str, Session]` mutated in place; we model it as an
association list threaded through the operations. -/

/-- The session store: ids mapped to sessions (unique keys). -/
abbrev Store := List (String × Session)

/-- `SessionStore.get`: dictionary lookup, no mutation. -/
def storeGet (store : Store) (session_id : String) : Option Session :=
  match store with
  | [] => none
  | (k, s) :: rest => if k == session_id then some s else storeGet rest session_id

/-- Overwrite the session stored under an existing id (the functional image of
Python's in-place mutation of the stored `Session` object). -/
def storePut (store : Store) (session_id : String) (s : Session) : Store :=
  store.map (fun p => if p.1 == session_id then (session_id, s) else p)

/-- `SessionStore.reset`: when the id is present, reinitialise that session's
preferences and question index (conversation kept) and return it; when absent,
return `None` and leave the store untouched. The pair is (returned value,
store after the call). -/
def SessionStore.reset (store : Store) (session_id : String) :
    Option Session × Store :=
  match storeGet store session_id with
  | some session =>
    (some session.resetState, storePut store session_id session.resetState)
  | none => (none, store)

/-! ## Questions (`services/__init__.py`) -/

/-- The fixed, ordered list of preference questions. -/
def QUESTIONS : List String := [
  "What is your preferred tone of voice? For example: formal, casual or enthusiastic.",
  "What is your preferred response format? For example: bullet points or paragraphs.",
  "Which language would you like your news summaries in?",
  "How detailed would you like the summaries? For example: concise or detailed.",
  "What topics are you interested in? For example: technology, sports, politics."]

/-- `Session.next_question`: `QUESTIONS[question_index]` when the cursor is in
range, else `None`. -/
def Session.next_question (s : Session) : Option String :=
  QUESTIONS.get? s.question_index

/-! ## News service (`services/news_service.py`) -/

/-- One corpus entry of `DUMMY_NEWS`: title, description and a single topic tag. -/
structure NewsItem where
  title : String
  description : String
  topics : String
deriving Repr, DecidableEq

/-- The static article corpus `DUMMY_NEWS`. -/
def DUMMY_NEWS : List NewsItem := [
  ⟨"Breakthrough in Quantum Computing",
   "Scientists have achieved a major milestone in quantum computing by demonstrating a 100‑qubit processor.",
   "technology"⟩,
  ⟨"Local Team Wins Championship",
   "In an exciting finale, the underdogs clinched the national championship with a last‑minute score.",
   "sports"⟩,
  ⟨"New Environmental Policies Introduced",
   "The government has introduced sweeping new policies aimed at reducing carbon emissions by 50% by 2030.",
   "politics"⟩,
  ⟨"Advances in Renewable Energy",
   "Researchers have developed a more efficient solar cell that could significantly reduce the cost of renewable energy.",
   "technology"⟩,
  ⟨"Historic Peace Agreement Signed",
   "Two neighbouring countries have signed a historic peace agreement, ending decades of conflict.",
   "politics"⟩,
  ⟨"Athlete Breaks World Record",
   "A world record was shattered at the international meet, with the athlete setting a new benchmark in track and field.",
   "sports"⟩]

/-- `fetch_news(topics, count)`: split the comma-separated topic string, strip
and lowercase each term, keep corpus items whose tag is among them, fall back
to the whole corpus when nothing matches, shuffle, take `count`. The in-place
`random.shuffle` is a function parameter. -/
def fetch_news (shuffle : List NewsItem → List NewsItem)
    (topics : String) (count : Nat) : List NewsItem :=
  let requested_topics := (pySplitChar ',' topics).map (fun t => pyLower (pyStrip t))
  let matched := DUMMY_NEWS.filter (fun item => requested_topics.contains item.topics)
  let matched := if matched.isEmpty then DUMMY_NEWS else matched
  (shuffle matched).take count

/-- A Python preference dict as received by `adapt_article` /
`generate_news_response`: keys mapped to possibly-`None` values. -/
abbrev PrefDict := List (String × Option String)

/-- Python `d.get(k, default)`: the stored value when the key is present
(even when that value is `None`), the default only when the key is absent. -/
def pyDictGet (d : PrefDict) (k : String) (dflt : String) : Option String :=
  match List.lookup k d with
  | some v => v
  | none => some dflt

/-- The deterministic fallback of `adapt_article`, applied when the external
model produced nothing. Returns `none` when the Python code would raise
(`None.lower()` on a `None` preference), following the evaluation order of the
source: `response_format.lower()` first, then `interaction_style.lower()`,
then `tone.lower()`. -/
def adaptFallback (tone response_format interaction_style : Option String)
    (title description : String) : Option String :=
  match response_format with
  | none => none
  | some rf =>
    let summary_text :=
      if pyStartsWith (pyLower rf) "bullet" then
        pyJoin "\n"
          ((((pySplitChar '.' description).map pyStrip).filter (fun s => s != "")).map
            (fun s => "• " ++ pyStrip s ++ "."))
      else description
    match interaction_style with
    | none => none
    | some ist =>
      let summary_text :=
        if pyStartsWith (pyLower ist) "detailed" then title ++ ": " ++ summary_text
        else summary_text
      match tone with
      | none => none
      | some t =>
        some (if pyStartsWith (pyLower t) "enthusias"
              then pyReplaceChar '.' '!' summary_text
              else summary_text)

/-- The prompt string `adapt_article` builds for the external model
(`Optional` values render as `"None"` in the f-string). -/
def adaptPrompt (tone response_format language interaction_style : Option String)
    (title description topics : String) : String :=
  "You are a helpful assistant tasked with rewriting news articles.\n" ++
  "Please summarise the following news article in " ++ optStr language ++ ".\n" ++
  "Use a " ++ optStr tone ++ " tone and make the summary " ++ optStr interaction_style ++ ".\n" ++
  "Present the response as " ++ optStr response_format ++ ".\n\n" ++
  "Title: " ++ title ++ "\n" ++
  "Description: " ++ description ++ "\n" ++
  "Topics: " ++ topics ++ "\n\n" ++
  "Summary:"

/-- `adapt_article(article, preferences)`: read the four style slots with
`dict.get` defaults, try the external model (`call_ollama`, modelled by the
`ollama` parameter; Python's `if summary:` treats `None` and `""` alike), and
otherwise run the deterministic fallback. `none` models a raised exception. -/
def adapt_article (ollama : String → String → Option String)
    (article : NewsItem) (preferences : PrefDict) : Option String :=
  let tone := pyDictGet preferences "tone_of_voice" "formal"
  let response_format := pyDictGet preferences "response_format" "paragraphs"
  let language := pyDictGet preferences "language" "English"
  let interaction_style := pyDictGet preferences "interaction_style" "concise"
  let prompt := adaptPrompt tone response_format language interaction_style
    article.title article.description article.topics
  match ollama "phi3" prompt with
  | some s =>
    if s != "" then some s
    else adaptFallback tone response_format interaction_style article.title article.description
  | none => adaptFallback tone response_format interaction_style article.title article.description

/-- The article-selection / adaptation / joining part of
`generate_news_response`, once the topics string has been resolved. A `none`
from any `adapt_article` call (a raised exception) propagates. -/
def composeWith (ollama : String → String → Option String)
    (shuffle : List NewsItem → List NewsItem)
    (preferences : PrefDict) (topics : String) (count : Nat) : Option String :=
  let articles := fetch_news shuffle topics count
  (articles.mapM (fun a => adapt_article ollama a preferences)).map (pyJoin "\n\n")

/-- `generate_news_response(preferences, count)`: resolve
`preferences.get("news_topics", "technology")` — a present-but-`None` value is
returned as is and makes `fetch_news` raise on `None.split` — then select,
adapt and join. -/
def generate_news_response (ollama : String → String → Option String)
    (shuffle : List NewsItem → List NewsItem)
    (preferences : PrefDict) (count : Nat) : Option String :=
  match pyDictGet preferences "news_topics" "technology" with
  | none => none
  | some topics => composeWith ollama shuffle preferences topics count

/-! ## Chat route (`routes/chat.py`) -/

/-- The Python dict `session.preferences` as passed to the news service. -/
def Preferences.toDict (p : Preferences) : PrefDict :=
  [("tone_of_voice", p.tone_of_voice),
   ("response_format", p.response_format),
   ("language", p.language),
   ("interaction_style", p.interaction_style),
   ("news_topics", p.news_topics)]

/-- The `ChatResponse` body of the message endpoint. -/
structure ChatResponseM where
  responses : List String
  preferences_complete : Bool
  preferencesOut : Preferences
deriving Repr, DecidableEq

/-- Outcome of one call to the message endpoint: 404 for an unknown id,
`error` for an uncaught exception, or the response body together with the
store after the call. -/
inductive ChatOutcome where
  | notFound
  | error
  | ok (resp : ChatResponseM) (store : Store)
deriving Repr, DecidableEq

/-- Append one message to a session's conversation log. -/
def Session.appendMsg (s : Session) (role content : String) : Session :=
  { s with conversation := s.conversation ++ [⟨role, content⟩] }

/-- The `POST /session/{id}/message` handler (`routes.chat.chat`): look up the
session, append the stripped user input to its log, then run the
reset / more / answer-recording / news-generation decision protocol, appending
every assistant response to the log before returning. -/
def chat (ollama : String → String → Option String)
    (shuffle : List NewsItem → List NewsItem)
    (store : Store) (session_id : String) (message : String) : ChatOutcome :=
  match storeGet store session_id with
  | none => .notFound
  | some session =>
    let user_input := pyStrip message
    let session := session.appendMsg "user" user_input
    if pyLower user_input == "reset" then
      let session := session.resetState
      match session.next_question with
      | some next_q =>
        let session := session.appendMsg "assistant" next_q
        .ok ⟨[next_q], false, session.preferences⟩ (storePut store session_id session)
      | none =>
        .ok ⟨[], false, session.preferences⟩ (storePut store session_id session)
    else if pyLower user_input == "more" || pyLower user_input == "next" ||
            pyLower user_input == "another" then
      if session.is_complete then
        match generate_news_response ollama shuffle session.preferences.toDict 3 with
        | none => .error
        | some news =>
          let session := session.appendMsg "assistant" news
          .ok ⟨[news], true, session.preferences⟩ (storePut store session_id session)
      else
        match session.next_question with
        | some next_q =>
          let session := session.appendMsg "assistant" next_q
          .ok ⟨[next_q], false, session.preferences⟩ (storePut store session_id session)
        | none =>
          .ok ⟨[], false, session.preferences⟩ (storePut store session_id session)
    else if !session.is_complete then
      let session := session.record_answer user_input
      match session.next_question with
      | some next_q =>
        let session := session.appendMsg "assistant" next_q
        .ok ⟨[next_q], false, session.preferences⟩ (storePut store session_id session)
      | none =>
        match generate_news_response ollama shuffle session.preferences.toDict 3 with
        | none => .error
        | some news =>
          let session := session.appendMsg "assistant" news
          .ok ⟨[news], true, session.preferences⟩ (storePut store session_id session)
    else
      match generate_news_response ollama shuffle session.preferences.toDict 3 with
      | none => .error
      | some news =>
        let session := session.appendMsg "assistant" news
        .ok ⟨[news], true, session.preferences⟩ (storePut store session_id session)

/-! ## Agent loop (`agent/runtime.py`, `agent/tools.py`, `agent/schemas.py`)

Mock mode (`MOCK_MODE`, default on) is modelled: `exa_news_fetcher` returns
the deterministic mock articles and `news_summarizer` runs its deterministic
formatting. `datetime.utcnow()` is a parameter `now` counted in hours. -/

/-- The agent-side `Preferences` snapshot (`agent/schemas.py`), all fields
optional. -/
structure AgentPrefs where
  tone : Option String
  format : Option String
  language : Option String
  interaction : Option String
  topics : Option (List String)
deriving Repr, DecidableEq

/-- `FetchParams` for the news fetcher tool (defaults: `num_results = 5`,
`recency_days = 7`). -/
structure FetchParams where
  query : String
  num_results : Nat
  recency_days : Nat
deriving Repr, DecidableEq

/-- An agent-side `Article` (`agent/schemas.py`); `published_at` is hours
before the fixed epoch parameter, `source` is optional. -/
structure AgentArticle where
  title : String
  url : String
  snippet : String
  published_at : Int
  source : Option String
deriving Repr, DecidableEq

/-- The arguments recorded on a `tool_call` event: the fetcher's
`FetchParams` dump, or the summariser's empty dict. -/
inductive EventArgs where
  | fetch (p : FetchParams)
  | empty
deriving Repr, DecidableEq

/-- The payload recorded on a `tool_result` event. -/
inductive EventResult where
  | articles (arts : List AgentArticle)
  | summary (s : String)
deriving Repr, DecidableEq

/-- A streamed agent event (`type` tag plus payload). -/
inductive Event where
  | tool_call (name : String) (args : EventArgs)
  | tool_result (name : String) (result : EventResult)
  | content (text : String)
deriving Repr, DecidableEq

/-- `_mock_articles(query, n)`: `n` synthetic articles whose titles embed the
query, with publication timestamps `now - 3*i` hours. -/
def mock_articles (now : Int) (query : String) (n : Nat) : List AgentArticle :=
  (List.range n).map (fun (i : Nat) =>
    ⟨"Mock headline about " ++ query ++ " #" ++ toString (i + 1),
     "https://example.com/" ++ pyReplaceChar ' ' '-' query ++ "/" ++ toString (i + 1),
     "This is a mock snippet for development.",
     now - 3 * (Int.ofNat i),
     some "example.com"⟩)

/-- `news_summarizer(articles, tone, fmt, language, interaction)` in mock
mode: a tone-chosen greeting plus a bullet or space-joined body, truncated to
the first three items unless `interaction == "detailed"`. -/
def news_summarizer (articles : List AgentArticle)
    (tone fmt language interaction : Option String) : String :=
  if articles.isEmpty then "I couldn't find any articles on that topic."
  else
    let lines := articles.map (fun art => art.title ++ " (" ++ optStr art.source ++ ")")
    let greeting :=
      if tone == some "formal" then "Here is a formal summary of the latest articles:"
      else if tone == some "enthusiastic" then "Great news! Here are some exciting headlines:"
      else "Here's what I found:"
    let summary_body :=
      if fmt == some "bullets" then pyJoin "\n" (lines.map (fun l => "- " ++ l))
      else pyJoin " " lines
    let body :=
      if interaction == some "detailed" then summary_body
      else
        let truncated := lines.take 3
        if fmt == some "bullets" then pyJoin "\n" (truncated.map (fun l => "- " ++ l))
        else pyJoin " " truncated
    greeting ++ "\n" ++ body

/-- The keyword test of `run_agent`: the lowercased message contains
`"news"`, `"latest"` or `"headlines"`. -/
def wantsNews (user_text : String) : Bool :=
  let lower_text := pyLower user_text
  pyContains lower_text "news" || pyContains lower_text "latest" ||
  pyContains lower_text "headlines"

/-- `bool(prefs.topics and len(prefs.topics) > 0)`. -/
def hasTopics (prefs : AgentPrefs) : Bool :=
  match prefs.topics with
  | some ts => !ts.isEmpty
  | none => false

/-- The branch condition of `run_agent`: `wants_news or has_topics`. -/
def agentTriggers (user_text : String) (prefs : AgentPrefs) : Bool :=
  wantsNews user_text || hasTopics prefs

/-- The query `run_agent` builds for the fetcher: the `", "`-join of the
snapshot's topics when at least one is present, the raw message otherwise. -/
def agentQuery (user_text : String) (prefs : AgentPrefs) : String :=
  if hasTopics prefs then pyJoin ", " (prefs.topics.getD []) else user_text

/-- `run_agent(user_text, prefs)` in mock mode: either the five-event
fetch-and-summarise sequence, or a single echoing `content` event. -/
def run_agent (now : Int) (user_text : String) (prefs : AgentPrefs) : List Event :=
  if agentTriggers user_text prefs then
    let query := agentQuery user_text prefs
    let fetch_params : FetchParams := ⟨query, 5, 7⟩
    let articles := mock_articles now query fetch_params.num_results
    let summary := news_summarizer articles prefs.tone prefs.format
      prefs.language prefs.interaction
    [.tool_call "exa_news_fetcher" (.fetch fetch_params),
     .tool_result "exa_news_fetcher" (.articles articles),
     .tool_call "news_summarizer" .empty,
     .tool_result "news_summarizer" (.summary summary),
     .content summary]
  else
    [.content ("You said: " ++ user_text)]

/-! ## Reachable session states

Session objects are created by `SessionStore.create` and then mutated only by
`record_answer`, by `SessionStore.reset`, and by conversation appends in the
route handler. -/

/-- Session states reachable through the operations the Controller performs. -/
inductive Reachable : Session → Prop
  | create (id : String) : Reachable (Session.create id)
  | record {s : Session} (a : String) : Reachable s → Reachable (s.record_answer a)
  | reset {s : Session} : Reachable s → Reachable s.resetState
  | append {s : Session} (role content : String) :
      Reachable s → Reachable (s.appendMsg role content)

/-- Reachability restricted to runs in which every recorded answer is
non-empty after stripping. -/
inductive ReachableNE : Session → Prop
  | create (id : String) : ReachableNE (Session.create id)
  | record {s : Session} (a : String) (hne : pyStrip a ≠ "") :
      ReachableNE s → ReachableNE (s.record_answer a)
  | reset {s : Session} : ReachableNE s → ReachableNE s.resetState
  | append {s : Session} (role content : String) :
      ReachableNE s → ReachableNE (s.appendMsg role content)

/-- The cursor invariant: the question index stays in `[0, 5]` and every slot
at or beyond the cursor is still `None`. -/
def cursorInv (s : Session) : Prop :=
  s.question_index ≤ 5 ∧
  ∀ j, s.question_index ≤ j → getSlot s.preferences j = none

/-- The filled-slot invariant: every slot before the cursor is truthy. -/
def filledInv (s : Session) : Prop :=
  ∀ j, j < s.question_index → truthy (getSlot s.preferences j) = true

/-! ## Spec-side views of the adapter fallback (for the refinement claim)

The three transforms the spec describes for the deterministic fallback, to be
compared with `adapt_article` itself. -/

/-- Spec view, first transform: bullet rendering when the response format asks
for bullets, otherwise the raw description. -/
def bulletTransform (response_format description : String) : String :=
  if pyStartsWith (pyLower response_format) "bullet" then
    pyJoin "\n"
      ((((pySplitChar '.' description).map pyStrip).filter (fun s => s != "")).map
        (fun s => "• " ++ pyStrip s ++ "."))
  else description

/-- Spec view, second transform: title prefix for a detailed interaction style. -/
def detailTransform (interaction_style title body : String) : String :=
  if pyStartsWith (pyLower interaction_style) "detailed" then title ++ ": " ++ body
  else body

/-- Spec view, third transform: periods become exclamation marks for an
enthusiastic tone. -/
def enthusTransform (tone body : String) : String :=
  if pyStartsWith (pyLower tone) "enthusias" then pyReplaceChar '.' '!' body
  else body

/-! ## Concrete fixtures used by witnesses and counterexamples -/

/-- The absent external text-generation collaborator. -/
def noOllama : String → String → Option String := fun _ _ => none

/-- A small concrete article. -/
def sampleArticle : NewsItem := ⟨"T", "D.", "technology"⟩

/-- The style dict holding exactly the documented defaults. -/
def defaultStyleDict : PrefDict :=
  [("tone_of_voice", some "formal"), ("response_format", some "paragraphs"),
   ("language", some "English"), ("interaction_style", some "concise")]

/-- A store holding one fresh session under id `"s1"`. -/
def demoStore : Store := [("s1", Session.create "s1")]

/-- A session that answered all five questions with blank input. -/
def badSession : Session :=
  (((((Session.create "bad").record_answer "").record_answer "").record_answer
    "").record_answer "").record_answer ""

/-- A session that answered all five questions with non-blank input. -/
def goodSession : Session :=
  (((((Session.create "good").record_answer "formal").record_answer
    "bullets").record_answer "en").record_answer "concise").record_answer "technology"

/-- The second question, asked after the first answer is recorded. -/
def q1text : String :=
  "What is your preferred response format? For example: bullet points or paragraphs."

/-- The response body `chat` produces on `demoStore` for message `"  hi  "`. -/
def c8resp : ChatResponseM :=
  ⟨[q1text], false, ⟨some "hi", none, none, none, none⟩⟩

/-- The store `chat` leaves behind on `demoStore` for message `"  hi  "`. -/
def c8store : Store :=
  [("s1", ⟨"s1", ⟨some "hi", none, none, none, none⟩,
    [⟨"user", "hi"⟩, ⟨"assistant", q1text⟩], 1⟩)]

/-- An agent preferences snapshot carrying two topics. -/
def c10prefs : AgentPrefs := ⟨none, none, none, none, some ["ai", "tech"]⟩

/-- The empty agent preferences snapshot. -/
def emptyAgentPrefs : AgentPrefs := ⟨none, none, none, none, none⟩

/-! ## Helper lemmas -/

lemma getSlot_initial (j : Nat) : getSlot initialPreferences j = none := by
  rcases j with _ | _ | _ | _ | _ | j <;> rfl

lemma getSlot_setSlot_self (p : Preferences) (i : Nat) (hi : i < 5) (v : String) :
    getSlot (setSlot p i v) i = some v := by
  interval_cases i <;> rfl

lemma getSlot_setSlot_ne (p : Preferences) (i j : Nat) (hi : i < 5) (hne : j ≠ i)
    (v : String) : getSlot (setSlot p i v) j = getSlot p j := by
  interval_cases i <;> rcases j with _ | _ | _ | _ | _ | j <;> simp_all [getSlot, setSlot]

lemma is_complete_eq_true_iff (s : Session) :
    s.is_complete = true ↔ ∀ j, j < 5 → truthy (getSlot s.preferences j) = true := by
  unfold Session.is_complete
  constructor
  · intro h j hj
    simp only [Bool.and_eq_true] at h
    interval_cases j <;> simp only [getSlot] <;> tauto
  · intro h
    have h0 := h 0 (by omega); have h1 := h 1 (by omega); have h2 := h 2 (by omega)
    have h3 := h 3 (by omega); have h4 := h 4 (by omega)
    simp only [getSlot] at h0 h1 h2 h3 h4
    simp [h0, h1, h2, h3, h4]

lemma record_answer_conversation (s : Session) (a : String) :
    (s.record_answer a).conversation = s.conversation := by
  unfold Session.record_answer; split <;> rfl

lemma reachable_cursorInv {s : Session} (h : Reachable s) : cursorInv s := by
  induction h with
  | create id => exact ⟨by simp [Session.create], fun j _ => getSlot_initial j⟩
  | record a _ ih =>
    unfold Session.record_answer
    split
    · next hlt =>
      refine ⟨by simp; omega, fun j hj => ?_⟩
      simp only at hj ⊢
      rw [getSlot_setSlot_ne _ _ _ hlt (by omega)]
      exact ih.2 j (by omega)
    · exact ih
  | reset _ ih => exact ⟨by simp [Session.resetState], fun j _ => getSlot_initial j⟩
  | append role content _ ih => exact ih

lemma reachableNE_inv {s : Session} (h : ReachableNE s) : cursorInv s ∧ filledInv s := by
  induction h with
  | create id =>
    exact ⟨⟨by simp [Session.create], fun j _ => getSlot_initial j⟩,
      fun j hj => absurd hj (by simp [Session.create])⟩
  | record a hne _ ih =>
    obtain ⟨⟨hle, hnone⟩, hfill⟩ := ih
    unfold Session.record_answer
    split
    · next hlt =>
      refine ⟨⟨by simp; omega, fun j hj => ?_⟩, fun j hj => ?_⟩
      · simp only at hj ⊢
        rw [getSlot_setSlot_ne _ _ _ hlt (by omega)]
        exact hnone j (by omega)
      · simp only at hj ⊢
        rcases Nat.lt_succ_iff_lt_or_eq.mp hj with hlt' | heq
        · rw [getSlot_setSlot_ne _ _ _ hlt (by omega)]
          exact hfill j hlt'
        · subst heq
          rw [getSlot_setSlot_self _ _ hlt]
          simpa [truthy, bne_iff_ne] using hne
    · exact ⟨⟨hle, hnone⟩, hfill⟩
  | reset _ ih =>
    exact ⟨⟨by simp [Session.resetState], fun j _ => getSlot_initial j⟩,
      fun j hj => absurd hj (by simp [Session.resetState])⟩
  | append role content _ ih => exact ih

lemma complete_imp_cursor_five {s : Session} (inv : cursorInv s)
    (hc : s.is_complete = true) : s.question_index = 5 := by
  by_contra hne
  have hle := inv.1
  have hlt : s.question_index < 5 := by omega
  have ht := (is_complete_eq_true_iff s).mp hc s.question_index hlt
  rw [inv.2 s.question_index (Nat.le_refl _)] at ht
  simp [truthy] at ht

lemma storeGet_storePut_self (store : Store) (sid : String) (v : Session)
    (h : (storeGet store sid).isSome = true) :
    storeGet (storePut store sid v) sid = some v := by
  induction store with
  | nil => simp [storeGet] at h
  | cons p rest ih =>
    by_cases hp : p.1 == sid
    · have hp' : p.1 = sid := by simpa using hp
      have hput : storePut (p :: rest) sid v = (sid, v) :: storePut rest sid v := by
        simp [storePut, hp']
      rw [hput]
      simp [storeGet]
    · have hp' : ¬p.1 = sid := by simpa using hp
      have hput : storePut (p :: rest) sid v = p :: storePut rest sid v := by
        simp [storePut, hp']
      have hget : storeGet (p :: rest) sid = storeGet rest sid := by
        simp [storeGet, hp]
      have hget2 : storeGet (p :: storePut rest sid v) sid =
          storeGet (storePut rest sid v) sid := by
        simp [storeGet, hp]
      rw [hget] at h
      rw [hput, hget2]
      exact ih h

lemma pyDictGet_of_absent (prefs : PrefDict) (k d : String)
    (h : List.lookup k prefs = none) : pyDictGet prefs k d = some d := by
  unfold pyDictGet; rw [h]

lemma pyDictGet_isSome (prefs : PrefDict) (k d : String)
    (h : List.lookup k prefs ≠ some none) :
    ∃ v, pyDictGet prefs k d = some v := by
  unfold pyDictGet
  cases hl : List.lookup k prefs with
  | none => exact ⟨d, rfl⟩
  | some v =>
    cases v with
    | none => exact absurd hl h
    | some w => exact ⟨w, rfl⟩

lemma adaptFallback_isSome (t rf ist title desc : String) :
    (adaptFallback (some t) (some rf) (some ist) title desc).isSome = true := by
  simp only [adaptFallback]
  split <;> split <;> simp

lemma adapt_article_congr (ollama : String → String → Option String)
    (a : NewsItem) (p q : PrefDict)
    (h1 : pyDictGet p "tone_of_voice" "formal" = pyDictGet q "tone_of_voice" "formal")
    (h2 : pyDictGet p "response_format" "paragraphs" =
          pyDictGet q "response_format" "paragraphs")
    (h3 : pyDictGet p "language" "English" = pyDictGet q "language" "English")
    (h4 : pyDictGet p "interaction_style" "concise" =
          pyDictGet q "interaction_style" "concise") :
    adapt_article ollama a p = adapt_article ollama a q := by
  unfold adapt_article
  rw [h1, h2, h3, h4]

lemma mock_articles_length (now : Int) (query : String) (n : Nat) :
    (mock_articles now query n).length = n := by
  unfold mock_articles
  rw [List.length_map, List.length_range]

lemma news_summarizer_ne_of_nonempty (articles : List AgentArticle)
    (tone fmt language interaction : Option String)
    (h : articles.isEmpty = false) :
    news_summarizer articles tone fmt language interaction ≠ "" := by
  unfold news_summarizer
  rw [h]
  simp only [Bool.false_eq_true, if_false]
  intro hcon
  have hl := congrArg String.length hcon
  rw [String.length_append, String.length_append] at hl
  have hn : ("\n" : String).length = 1 := rfl
  have hz : ("" : String).length = 0 := rfl
  omega

/-! ## Claim theorems -/

/-- C1 (counterexample): answering all five questions with blank input reaches
a session with `question_index = 5` whose preferences are not complete, so the
cursor view and the Preferences-derived view of completion do drift apart on a
state reachable through `create` and `record_answer`. -/
theorem C1_counterexample :
    Reachable badSession ∧
    badSession.question_index = 5 ∧ badSession.is_complete = false :=
  ⟨Reachable.record "" (Reachable.record "" (Reachable.record ""
      (Reachable.record "" (Reachable.record "" (Reachable.create "bad"))))),
   by decide, by decide⟩

/-- C1 (amended): for every reachable session state, completeness forces
`question_index = 5`; and along runs in which every recorded answer strips to
a non-empty string, `question_index = 5` holds exactly when every Preferences
slot is non-null and non-empty. -/
theorem C1_cursor_completion_consistency :
    (∀ s, Reachable s → s.is_complete = true → s.question_index = 5) ∧
    (∀ s, ReachableNE s → (s.question_index = 5 ↔ s.is_complete = true)) := by
  constructor
  · intro s hs hc
    exact complete_imp_cursor_five (reachable_cursorInv hs) hc
  · intro s hs
    obtain ⟨inv, fil⟩ := reachableNE_inv hs
    constructor
    · intro h5
      exact (is_complete_eq_true_iff s).mpr (fun j hj => fil j (by omega))
    · intro hc
      exact complete_imp_cursor_five inv hc

/-- C1 (witness): the consistency equivalence applied to the session that
answered the five questions with non-blank answers. -/
theorem C1_witness :
    goodSession.question_index = 5 ↔ goodSession.is_complete = true :=
  C1_cursor_completion_consistency.2 goodSession
    (ReachableNE.record "technology" (by decide)
      (ReachableNE.record "concise" (by decide)
        (ReachableNE.record "en" (by decide)
          (ReachableNE.record "bullets" (by decide)
            (ReachableNE.record "formal" (by decide)
              (ReachableNE.create "good"))))))

/-- C2: when `question_index < 5`, `record_answer` writes the stripped answer
into the slot at the cursor, leaves every other slot unchanged, and advances
the cursor by exactly one; when `question_index = 5` it is a no-op. -/
theorem C2_record_answer_protocol (s : Session) (a : String) :
    (s.question_index < 5 →
      getSlot (s.record_answer a).preferences s.question_index = some (pyStrip a) ∧
      (s.record_answer a).question_index = s.question_index + 1 ∧
      ∀ j, j ≠ s.question_index →
        getSlot (s.record_answer a).preferences j = getSlot s.preferences j) ∧
    (s.question_index = 5 → s.record_answer a = s) := by
  constructor
  · intro hlt
    unfold Session.record_answer
    rw [if_pos hlt]
    exact ⟨getSlot_setSlot_self _ _ hlt _, rfl,
      fun j hj => getSlot_setSlot_ne _ _ _ hlt hj _⟩
  · intro h5
    unfold Session.record_answer
    rw [if_neg (by omega)]

/-- C2 (witness): the protocol evaluated on a fresh session (cursor `0`) and
on a session whose cursor is already `5`. -/
theorem C2_witness :
    (getSlot ((Session.create "w").record_answer " x ").preferences
        (Session.create "w").question_index = some (pyStrip " x ") ∧
      ((Session.create "w").record_answer " x ").question_index =
        (Session.create "w").question_index + 1 ∧
      ∀ j, j ≠ (Session.create "w").question_index →
        getSlot ((Session.create "w").record_answer " x ").preferences j =
          getSlot (Session.create "w").preferences j) ∧
    goodSession.record_answer "late" = goodSession :=
  ⟨(C2_record_answer_protocol (Session.create "w") " x ").1 (by decide),
   (C2_record_answer_protocol goodSession "late").2 (by decide)⟩

/-- C3: for an id present in the store, `reset` returns the session with
all-null preferences and cursor `0`, stores it back under the same id, and
preserves the conversation log entry for entry; for an absent id it returns
the absence signal and leaves the store untouched. -/
theorem C3_reset_frame (store : Store) (sid : String) :
    (∀ s, storeGet store sid = some s →
      SessionStore.reset store sid =
        (some s.resetState, storePut store sid s.resetState) ∧
      s.resetState.preferences = initialPreferences ∧
      s.resetState.question_index = 0 ∧
      s.resetState.conversation = s.conversation ∧
      storeGet (storePut store sid s.resetState) sid = some s.resetState) ∧
    (storeGet store sid = none → SessionStore.reset store sid = (none, store)) := by
  constructor
  · intro s hs
    refine ⟨?_, rfl, rfl, rfl, storeGet_storePut_self store sid _ (by rw [hs]; rfl)⟩
    unfold SessionStore.reset
    rw [hs]
  · intro h
    unfold SessionStore.reset
    rw [h]

/-- C3 (witness): reset applied to the present id `"s1"` of the demo store
and to the absent id `"zz"`. -/
theorem C3_witness :
    (SessionStore.reset demoStore "s1" =
        (some (Session.create "s1").resetState,
         storePut demoStore "s1" (Session.create "s1").resetState) ∧
      (Session.create "s1").resetState.preferences = initialPreferences ∧
      (Session.create "s1").resetState.question_index = 0 ∧
      (Session.create "s1").resetState.conversation =
        (Session.create "s1").conversation ∧
      storeGet (storePut demoStore "s1" (Session.create "s1").resetState) "s1" =
        some (Session.create "s1").resetState) ∧
    SessionStore.reset demoStore "zz" = (none, demoStore) :=
  ⟨(C3_reset_frame demoStore "s1").1 (Session.create "s1") (by decide),
   (C3_reset_frame demoStore "zz").2 (by decide)⟩

/-- C4 (counterexample): a `tone_of_voice` slot that is present but null is
not replaced by the default `"formal"`: the call raises (`None.lower()`,
modelled by `none`) instead of behaving like the explicit default. -/
theorem C4_counterexample :
    adapt_article noOllama sampleArticle
      [("tone_of_voice", none), ("response_format", some "paragraphs"),
       ("language", some "English"), ("interaction_style", some "concise")] = none ∧
    adapt_article noOllama sampleArticle
      [("tone_of_voice", some "formal"), ("response_format", some "paragraphs"),
       ("language", some "English"), ("interaction_style", some "concise")] =
      some sampleArticle.description :=
  ⟨by decide, by decide⟩

/-- C4 (amended): the documented defaults are substituted for slots whose key
is absent from the preferences mapping: with the four style keys absent,
`adapt_article` behaves exactly as with tone `"formal"`, format
`"paragraphs"`, language `"English"` and interaction `"concise"`; with the
`news_topics` key absent, `generate_news_response` resolves the topics to
`"technology"`. A slot present with a null value is not defaulted. -/
theorem C4_absent_slot_defaults :
    (∀ (ollama : String → String → Option String) (a : NewsItem) (prefs : PrefDict),
      List.lookup "tone_of_voice" prefs = none →
      List.lookup "response_format" prefs = none →
      List.lookup "language" prefs = none →
      List.lookup "interaction_style" prefs = none →
      adapt_article ollama a prefs = adapt_article ollama a defaultStyleDict) ∧
    (∀ (ollama : String → String → Option String)
      (shuffle : List NewsItem → List NewsItem) (prefs : PrefDict) (count : Nat),
      List.lookup "news_topics" prefs = none →
      generate_news_response ollama shuffle prefs count =
        composeWith ollama shuffle prefs "technology" count) := by
  constructor
  · intro ollama a prefs h1 h2 h3 h4
    apply adapt_article_congr
    · rw [pyDictGet_of_absent _ _ _ h1]; rfl
    · rw [pyDictGet_of_absent _ _ _ h2]; rfl
    · rw [pyDictGet_of_absent _ _ _ h3]; rfl
    · rw [pyDictGet_of_absent _ _ _ h4]; rfl
  · intro ollama shuffle prefs count h
    unfold generate_news_response
    rw [pyDictGet_of_absent _ _ _ h]

/-- C4 (witness): the defaults applied to the empty preferences dict. -/
theorem C4_witness :
    adapt_article noOllama sampleArticle [] =
      adapt_article noOllama sampleArticle defaultStyleDict ∧
    generate_news_response noOllama id [] 3 = composeWith noOllama id [] "technology" 3 :=
  ⟨C4_absent_slot_defaults.1 noOllama sampleArticle [] rfl rfl rfl rfl,
   C4_absent_slot_defaults.2 noOllama id [] 3 rfl⟩

/-- C5 (counterexample): with the collaborator unavailable, a preferences
mapping whose `response_format` slot is null makes `adapt_article` raise
(`None.lower()`, modelled by `none`): the fallback is not total over null
slots. -/
theorem C5_counterexample :
    adapt_article noOllama sampleArticle
      [("tone_of_voice", some "formal"), ("response_format", none),
       ("language", some "English"), ("interaction_style", some "concise")] = none :=
  by decide

/-- C5 (amended): for every article, every collaborator behaviour, and every
preferences mapping whose `tone_of_voice`, `response_format` and
`interaction_style` slots are each absent or non-null (the `language` and
`news_topics` slots unconstrained), `adapt_article` never raises: it always
returns a string, in particular when the collaborator is unavailable or
fails. -/
theorem C5_fallback_total (ollama : String → String → Option String)
    (a : NewsItem) (prefs : PrefDict)
    (ht : List.lookup "tone_of_voice" prefs ≠ some none)
    (hf : List.lookup "response_format" prefs ≠ some none)
    (hi : List.lookup "interaction_style" prefs ≠ some none) :
    (adapt_article ollama a prefs).isSome = true := by
  obtain ⟨t, hget_t⟩ := pyDictGet_isSome prefs "tone_of_voice" "formal" ht
  obtain ⟨rf, hget_rf⟩ := pyDictGet_isSome prefs "response_format" "paragraphs" hf
  obtain ⟨ist, hget_ist⟩ := pyDictGet_isSome prefs "interaction_style" "concise" hi
  unfold adapt_article
  rw [hget_t, hget_rf, hget_ist]
  cases hml : ollama "phi3" (adaptPrompt (some t) (some rf)
      (pyDictGet prefs "language" "English") (some ist)
      a.title a.description a.topics) with
  | none => simpa [hml] using adaptFallback_isSome t rf ist a.title a.description
  | some s =>
    by_cases hs : s = ""
    · subst hs
      simpa [hml] using adaptFallback_isSome t rf ist a.title a.description
    · simp [hml, hs]

/-- C5 (witness): totality at a concrete preferences mapping in which only the
`language` slot is present — and null, which the fallback tolerates. -/
theorem C5_witness :
    (adapt_article noOllama sampleArticle [("language", none)]).isSome = true :=
  C5_fallback_total noOllama sampleArticle [("language", none)]
    (by decide) (by decide) (by decide)

/-- C6: on the deterministic fallback path (collaborator always absent) with
non-null preference strings, `adapt_article` is exactly the composition of
the bullet transform, then the detail transform, then the enthusiasm
transform. -/
theorem C6_fallback_composition (ollama : String → String → Option String)
    (h : ∀ m p, ollama m p = none)
    (a : NewsItem) (tone rf lang ist : String) :
    adapt_article ollama a
      [("tone_of_voice", some tone), ("response_format", some rf),
       ("language", some lang), ("interaction_style", some ist)] =
    some (enthusTransform tone
      (detailTransform ist a.title (bulletTransform rf a.description))) := by
  simp only [adapt_article, pyDictGet, List.lookup, h]
  simp [adaptFallback, bulletTransform, detailTransform, enthusTransform]

/-- C6 (witness): the composition evaluated with all three transforms
active. -/
theorem C6_witness :
    adapt_article noOllama sampleArticle
      [("tone_of_voice", some "enthusiastic"), ("response_format", some "bullets"),
       ("language", some "English"), ("interaction_style", some "detailed")] =
    some (enthusTransform "enthusiastic"
      (detailTransform "detailed" sampleArticle.title
        (bulletTransform "bullets" sampleArticle.description))) :=
  C6_fallback_composition noOllama (fun _ _ => rfl) sampleArticle
    "enthusiastic" "bullets" "English" "detailed"

/-- C7 (counterexample): the corpus is non-empty, yet `fetch_news` with
`count = 0` returns zero articles — "at least one article for every count"
fails at `count = 0`. -/
theorem C7_counterexample :
    DUMMY_NEWS ≠ [] ∧ fetch_news id "technology" 0 = [] :=
  ⟨by decide, by decide⟩

/-- C7 (amended): for every topics string, every length-preserving shuffle
and every count, `fetch_news` returns at most `count` articles, and at least
one whenever `count ≥ 1` (the corpus being non-empty); in particular it never
fails. -/
theorem C7_selection_bounds (shuffle : List NewsItem → List NewsItem)
    (hlen : ∀ l, (shuffle l).length = l.length)
    (topics : String) (count : Nat) :
    (fetch_news shuffle topics count).length ≤ count ∧
    (1 ≤ count → fetch_news shuffle topics count ≠ []) := by
  constructor
  · unfold fetch_news
    rw [List.length_take]
    exact Nat.min_le_left _ _
  · intro hc hempty
    have h1 := congrArg List.length hempty
    rw [List.length_nil] at h1
    unfold fetch_news at h1
    rw [List.length_take, hlen] at h1
    rcases Nat.min_eq_zero_iff.mp h1 with h2 | h2
    · omega
    · revert h2
      split

      · intro h2
        exact absurd h2 (by decide)
      · next hne =>
        intro h2
        rw [List.length_eq_zero] at h2
        rw [h2] at hne
        exact hne rfl

/-- C7 (witness): the bounds at the identity shuffle, topics `"sports"`,
count `3` (the corpus holds two sports items, so two are returned). -/
theorem C7_witness :
    (fetch_news id "sports" 3).length ≤ 3 ∧ fetch_news id "sports" 3 ≠ [] :=
  ⟨(C7_selection_bounds id (fun _ => rfl) "sports" 3).1,
   (C7_selection_bounds id (fun _ => rfl) "sports" 3).2 (by decide)⟩

/-- C8 (counterexample): the route logs `request.message.strip()`, not the
verbatim message: sending `"  hello  "` to a fresh session stores the user
entry `"hello"`. -/
theorem C8_counterexample :
    (match chat noOllama id demoStore "s1" "  hello  " with
     | .ok _ st => (storeGet st "s1").map (fun s => s.conversation.map Message.content)
     | _ => none) = some ["hello", q1text] ∧
    ("hello" : String) ≠ "  hello  " :=
  ⟨by decide, by decide⟩

/-- C8 (amended): on every message invocation against a known session id that
returns normally, the stored session's conversation log gains exactly the
user's message stripped of surrounding whitespace (not the verbatim string),
appended before any command handling, followed by every assistant response
produced, in order, before returning. -/
theorem C8_log_appends (ollama : String → String → Option String)
    (shuffle : List NewsItem → List NewsItem) (store : Store) (sid msg : String)
    (resp : ChatResponseM) (store' : Store)
    (h : chat ollama shuffle store sid msg = .ok resp store') :
    ∃ s s', storeGet store sid = some s ∧ storeGet store' sid = some s' ∧
      s'.conversation = s.conversation ++ [⟨"user", pyStrip msg⟩] ++
        resp.responses.map (fun r => Message.mk "assistant" r) := by
  cases hg : storeGet store sid with
  | none => simp [chat, hg] at h
  | some s =>
    simp only [chat, hg] at h
    repeat' split at h
    all_goals cases h
    all_goals
      refine ⟨s, _, rfl, storeGet_storePut_self store sid _ (by rw [hg]; rfl), ?_⟩
      simp [Session.appendMsg, Session.resetState, record_answer_conversation]

/-- C8 (witness): the append shape on the demo store for message `"  hi  "`. -/
theorem C8_witness :
    ∃ s s', storeGet demoStore "s1" = some s ∧ storeGet c8store "s1" = some s' ∧
      s'.conversation = s.conversation ++ [⟨"user", pyStrip "  hi  "⟩] ++
        c8resp.responses.map (fun r => Message.mk "assistant" r) :=
  C8_log_appends noOllama id demoStore "s1" "  hi  " c8resp c8store (by decide)

/-- C9: the agent loop emits exactly the five-event
fetch/summarise sequence, ending in a non-empty `content` text, when the
lowercased message mentions news/latest/headlines or the snapshot carries at
least one topic; otherwise it emits the single echoing `content` event. -/
theorem C9_agent_event_protocol (now : Int) (msg : String) (prefs : AgentPrefs) :
    (agentTriggers msg prefs = true →
      ∃ fp arts t,
        run_agent now msg prefs =
          [Event.tool_call "exa_news_fetcher" (EventArgs.fetch fp),
           Event.tool_result "exa_news_fetcher" (EventResult.articles arts),
           Event.tool_call "news_summarizer" EventArgs.empty,
           Event.tool_result "news_summarizer" (EventResult.summary t),
           Event.content t] ∧ t ≠ "") ∧
    (agentTriggers msg prefs = false →
      run_agent now msg prefs = [Event.content ("You said: " ++ msg)]) := by
  constructor
  · intro h
    refine ⟨⟨agentQuery msg prefs, 5, 7⟩,
      mock_articles now (agentQuery msg prefs) 5,
      news_summarizer (mock_articles now (agentQuery msg prefs) 5)
        prefs.tone prefs.format prefs.language prefs.interaction, ?_, ?_⟩
    · simp [run_agent, h]
    · apply news_summarizer_ne_of_nonempty
      have hlen5 := mock_articles_length now (agentQuery msg prefs) 5
      cases hM : mock_articles now (agentQuery msg prefs) 5 with
      | nil => rw [hM] at hlen5; simp at hlen5
      | cons a l => rfl
  · intro h
    simp [run_agent, h]

/-- C9 (witness): the five-event sequence on
`"Latest news on artificial intelligence"` with the empty snapshot. -/
theorem C9_witness :
    agentTriggers "Latest news on artificial intelligence" emptyAgentPrefs = true ∧
    (∃ fp arts t,
      run_agent 0 "Latest news on artificial intelligence" emptyAgentPrefs =
        [Event.tool_call "exa_news_fetcher" (EventArgs.fetch fp),
         Event.tool_result "exa_news_fetcher" (EventResult.articles arts),
         Event.tool_call "news_summarizer" EventArgs.empty,
         Event.tool_result "news_summarizer" (EventResult.summary t),
         Event.content t] ∧ t ≠ "") :=
  ⟨by decide,
   (C9_agent_event_protocol 0 "Latest news on artificial intelligence"
     emptyAgentPrefs).1 (by decide)⟩

/-- C10: whenever the agent's fetch branch fires, the first emitted event is
the fetcher call whose query is the `", "`-join of the snapshot's topics when
at least one topic is present (the message is ignored then) and the raw
message only when no topics are set, with `num_results = 5` always (and the
default `recency_days = 7`). -/
theorem C10_fetch_query_construction (now : Int) (msg : String) (prefs : AgentPrefs)
    (h : agentTriggers msg prefs = true) :
    (run_agent now msg prefs).head? =
      some (Event.tool_call "exa_news_fetcher"
        (EventArgs.fetch
          ⟨if hasTopics prefs then pyJoin ", " (prefs.topics.getD []) else msg,
           5, 7⟩)) := by
  simp [run_agent, h, agentQuery]

/-- C10 (witness): with topics `["ai", "tech"]` set, the query is
`"ai, tech"` and the message text is ignored. -/
theorem C10_witness :
    (run_agent 0 "ignore this message, latest news" c10prefs).head? =
      some (Event.tool_call "exa_news_fetcher"
        (EventArgs.fetch
          ⟨if hasTopics c10prefs then pyJoin ", " (c10prefs.topics.getD [])
            else "ignore this message, latest news",
           5, 7⟩)) :=
  C10_fetch_query_construction 0 "ignore this message, latest news" c10prefs (by decide)

end LatestNewsAgent
